import Mathlib

/-!
Verification development for the divhacks2025 exercise-analytics repository.
The Python sources under `python/` are shallowly embedded here:

* float arithmetic is embedded as exact rational arithmetic (`ℚ`) for the
  combinatorial/statistical code, and as real arithmetic (`ℝ`) for the
  trigonometric angle calculators;
* `numpy` statistics (`mean`, `median`, `std`) are implemented directly:
  `np.median` sorts and takes the middle element (or the average of the two
  middle elements), `np.std` is the population standard deviation.  A
  comparison `|x| ≤ 2·σ` is embedded as the equivalent `x² ≤ 4·σ²` so that it
  stays inside `ℚ` (both sides are non-negative, and squaring is monotone);
* Python `None` becomes `Option`, a raised exception becomes `Except.error` /
  `Option.none`;
* external `scipy` routines (`savgol_filter`, `find_peaks`) are not part of
  the repository; the embedded counters take them as function parameters.
-/

/-! ## Rational list statistics (embedding of the numpy helpers) -/

/-- Sum of a list of rationals (python `sum` / `np.sum`). -/
def sumQ (l : List ℚ) : ℚ := l.foldr (· + ·) 0

/-- Arithmetic mean (`np.mean`).  Python's mean of an empty list is undefined;
all call sites in the embedded code pass non-empty lists. -/
def meanQ (l : List ℚ) : ℚ := sumQ l / l.length

/-- Population variance, i.e. the square of `np.std` (numpy default
`ddof=0`). -/
def varianceQ (l : List ℚ) : ℚ :=
  sumQ (l.map (fun x => (x - meanQ l) ^ 2)) / l.length

/-- Insert into a sorted list (ascending). -/
def insertSorted (x : ℚ) : List ℚ → List ℚ
  | [] => [x]
  | y :: ys => if x ≤ y then x :: y :: ys else y :: insertSorted x ys

/-- Insertion sort, ascending — the sort underlying `np.median`. -/
def sortQ : List ℚ → List ℚ
  | [] => []
  | x :: xs => insertSorted x (sortQ xs)

/-- `np.median`: middle element of the sorted list for odd length, average of
the two middle elements for even length. -/
def medianQ (l : List ℚ) : ℚ :=
  let s := sortQ l
  let n := s.length
  if n % 2 = 1 then s.getD (n / 2) 0
  else (s.getD (n / 2 - 1) 0 + s.getD (n / 2) 0) / 2

/-- Binary minimum on ℚ, written out so that it evaluates by kernel
reduction. -/
def qmin (a b : ℚ) : ℚ := if a ≤ b then a else b

/-- Binary maximum on ℚ, written out so that it evaluates by kernel
reduction. -/
def qmax (a b : ℚ) : ℚ := if a ≤ b then b else a

/-- Python `min` on a non-empty list `x :: xs`. -/
def minQ (x : ℚ) (xs : List ℚ) : ℚ := xs.foldl qmin x

/-- Python `max` on a non-empty list `x :: xs`. -/
def maxQ (x : ℚ) (xs : List ℚ) : ℚ := xs.foldl qmax x

/-! ## `python/good_gym_analyzer.py` -/

namespace GoodGym

/-- `get_adaptive_thresholds(angles)` (good_gym_analyzer.py:18-31): returns
`(down_threshold, up_threshold)` at 40% and 60% of the observed range.
`none` models the `ValueError` python's `min`/`max` raise on an empty list. -/
def get_adaptive_thresholds (angles : List ℚ) : Option (ℚ × ℚ) :=
  match angles with
  | [] => none
  | x :: xs =>
    let min_angle := minQ x xs
    let max_angle := maxQ x xs
    let range_val := max_angle - min_angle
    some (min_angle + range_val * (2/5), min_angle + range_val * (3/5))

/-- The two-valued stage of the counter; python additionally uses `None`,
modelled as `Option Stage = none`. -/
inductive Stage where
  | up : Stage
  | down : Stage
deriving DecidableEq

/-- State of `GoodGymCounter` (good_gym_analyzer.py:33-39): rep counter,
stage, smoothing window (`deque(maxlen=5)`, most recent element last) and the
time of the last counted rep. -/
structure CounterState where
  counter : ℕ
  stage : Option Stage
  angle_history : List ℚ
  last_count_time : ℚ
deriving DecidableEq

/-- The initial `GoodGymCounter()` state. -/
def initState : CounterState :=
  { counter := 0, stage := none, angle_history := [], last_count_time := 0 }

/-- `deque(maxlen=5).append`: drop from the left once the length exceeds 5. -/
def pushHist (h : List ℚ) (a : ℚ) : List ℚ :=
  let h2 := h ++ [a]
  h2.drop (h2.length - 5)

/-- `GoodGymCounter.smooth_angle` (good_gym_analyzer.py:41-59) for a present
(non-`None`) angle: append to the history; with fewer than 3 samples return
the raw angle, otherwise drop outliers farther than two standard deviations
from the median and average the rest.  Returns the updated history together
with the smoothed value.  The outlier test `|x - median| ≤ 2·std` is embedded
as `(x - median)² ≤ 4·variance`. -/
def smooth_angle (hist : List ℚ) (angle : ℚ) : List ℚ × ℚ :=
  let h := pushHist hist angle
  if h.length < 3 then (h, angle)
  else
    let median_angle := medianQ h
    let v := varianceQ h
    let filtered := h.filter (fun x => (x - median_angle) ^ 2 ≤ 4 * v)
    (h, if 0 < filtered.length then meanQ filtered else angle)

/-- `GoodGymCounter.count_rep` (good_gym_analyzer.py:61-92) for a present
angle: smooth, compute the video time `frame_number / fps`, then run the state
machine.  A rep is counted only on an up→down transition and only when more
than `min_rep_time = 0.5` seconds have elapsed since the last counted rep.
Returns the successor state and the function's boolean result. -/
def count_rep (s : CounterState) (angle frame_number fps up_threshold
    down_threshold : ℚ) : CounterState × Bool :=
  let res := smooth_angle s.angle_history angle
  let s1 : CounterState := { s with angle_history := res.1 }
  let smoothed := res.2
  let current_time := frame_number / fps
  if smoothed > up_threshold then
    ({ s1 with stage := some Stage.up }, false)
  else if smoothed < down_threshold then
    if s1.stage = some Stage.up then
      if current_time - s1.last_count_time > 1/2 then
        (⟨s1.counter + 1, some Stage.down, s1.angle_history, current_time⟩, true)
      else (s1, false)
    else (s1, false)
  else (s1, false)

/-- The rep-counting loop of `analyze_video` (good_gym_analyzer.py:249-264):
seed the stage from the first angle relative to the thresholds, then feed
every angle to `count_rep`, sample `i` carrying frame number `(i+1)*3`
(every 3rd frame is processed).  Returns the final counter. -/
def runCounter (angle_sequence : List ℚ) (fps up_threshold down_threshold : ℚ) :
    ℕ :=
  let s0 := initState
  let s0 :=
    match angle_sequence.head? with
    | some a =>
      if a > up_threshold then { s0 with stage := some Stage.up }
      else if a < down_threshold then { s0 with stage := some Stage.down }
      else s0
    | none => s0
  (angle_sequence.enum.foldl
    (fun s ia =>
      (count_rep s ia.2 (((ia.1 + 1) * 3 : ℕ) : ℚ) fps up_threshold
        down_threshold).1)
    s0).counter

/-- The spec's two-clean-cycle scenario sequence (spec §8). -/
def scenarioSeq : List ℚ :=
  [170, 165, 150, 120, 95, 90, 95, 120, 150, 165, 170,
   165, 150, 120, 95, 90, 95, 120, 150, 165, 170]

end GoodGym

/-! ## `python/mediapipe_analyzer.py` — `ExerciseAnalyzer.smooth_angle_sequence` -/

namespace Mediapipe

/-- `ExerciseAnalyzer.smooth_angle_sequence` (mediapipe_analyzer.py:531-545):
sequences shorter than 3 are returned unchanged; otherwise a centred moving
average with window `min 5 (len // 3)` is taken, the window clipped to the
sequence at both ends (`start = max(0, i - ws//2)`,
`end = min(len, i + ws//2 + 1)`). -/
def smooth_angle_sequence (sequence : List ℚ) : List ℚ :=
  if sequence.length < 3 then sequence
  else
    let window_size := min 5 (sequence.length / 3)
    (List.range sequence.length).map (fun i =>
      let start := i - window_size / 2
      let stop := min sequence.length (i + window_size / 2 + 1)
      meanQ ((sequence.drop start).take (stop - start)))

end Mediapipe

/-- Per-sample use of `GoodGymCounter.smooth_angle` on a stream of angles:
each sample is smoothed against the history left by the previous samples,
exactly as the counter does frame by frame.  Returns the list of smoothed
values. -/
def smoothStream (hist : List ℚ) : List ℚ → List ℚ
  | [] => []
  | a :: rest =>
    let res := GoodGym.smooth_angle hist a
    res.2 :: smoothStream res.1 rest

/-! ## `python/research_based_analyzer.py` -/

namespace ResearchBased

/-- One frame of the per-joint angle dictionary consumed by
`ExerciseClassifier.classify`; a `none` field models a key that is absent
from the python dict. -/
structure AFrame where
  left_hip : Option ℚ
  right_hip : Option ℚ
  left_knee : Option ℚ
  right_knee : Option ℚ
  left_elbow : Option ℚ
  right_elbow : Option ℚ
deriving DecidableEq

/-- `(frame['left_X'] + frame['right_X']) / 2` when both sides are present. -/
def pairAvg (l r : Option ℚ) : Option ℚ :=
  match l, r with
  | some a, some b => some ((a + b) / 2)
  | _, _ => none

/-- ROM of a joint series: `max - min` when the series is non-empty, else the
python value `0`. -/
def romOf (angles : List ℚ) : ℚ :=
  match angles with
  | [] => 0
  | x :: xs => maxQ x xs - minQ x xs

/-- `ExerciseClassifier.classify` (research_based_analyzer.py:49-103).
Signatures: deadlift `hip_rom (40,90)`, `knee_rom (0,30)`; squat
`hip_rom (40,100)`, `knee_rom (40,110)`; push_up `elbow_rom (40,140)`.
A ROM inside the interval scores 3; a hip/knee ROM within 20 of the interval
midpoint scores 1.  Python's `max(scores.items(), key=...)` returns the first
maximal entry in dict order (deadlift, squat, push_up); the winner is
reported only when its score is at least 3, else `general_exercise`. -/
def classify (angle_data : List AFrame) : String :=
  if angle_data.length < 5 then "unknown"
  else
    let hip_angles := angle_data.filterMap (fun f => pairAvg f.left_hip f.right_hip)
    let knee_angles := angle_data.filterMap (fun f => pairAvg f.left_knee f.right_knee)
    let elbow_angles := angle_data.filterMap (fun f => pairAvg f.left_elbow f.right_elbow)
    let hip_rom := romOf hip_angles
    let knee_rom := romOf knee_angles
    let elbow_rom := romOf elbow_angles
    let score_deadlift : ℕ :=
      (if 40 ≤ hip_rom ∧ hip_rom ≤ 90 then 3
       else if |hip_rom - 65| < 20 then 1 else 0) +
      (if 0 ≤ knee_rom ∧ knee_rom ≤ 30 then 3
       else if |knee_rom - 15| < 20 then 1 else 0)
    let score_squat : ℕ :=
      (if 40 ≤ hip_rom ∧ hip_rom ≤ 100 then 3
       else if |hip_rom - 70| < 20 then 1 else 0) +
      (if 40 ≤ knee_rom ∧ knee_rom ≤ 110 then 3
       else if |knee_rom - 75| < 20 then 1 else 0)
    let score_pushup : ℕ :=
      if 40 ≤ elbow_rom ∧ elbow_rom ≤ 140 then 3 else 0
    let best_name :=
      if score_squat ≤ score_deadlift ∧ score_pushup ≤ score_deadlift then
        "deadlift"
      else if score_pushup ≤ score_squat then "squat"
      else "push_up"
    let best_score := max score_deadlift (max score_squat score_pushup)
    if 3 ≤ best_score then best_name else "general_exercise"

/-- `RepCounter.count_reps` (research_based_analyzer.py:111-137).  The
external scipy collaborators are passed in: `savgol` models
`signal.savgol_filter(·, window_length=5, polyorder=2)` and `findPeaks`
models `signal.find_peaks(·, distance=3, prominence=5)` (returning the peak
indices).  Fewer than 10 samples return 0 immediately; otherwise reps are
`min(#peaks, #valleys)` on the smoothed signal. -/
def count_reps (savgol : List ℚ → List ℚ) (findPeaks : List ℚ → List ℕ)
    (angle_sequence : List ℚ) : ℕ :=
  if angle_sequence.length < 10 then 0
  else
    let signal_data := angle_sequence
    let smoothed := if 5 ≤ signal_data.length then savgol signal_data
      else signal_data
    let peaks := findPeaks smoothed
    let valleys := findPeaks (smoothed.map (fun x => -x))
    min peaks.length valleys.length

end ResearchBased

/-! ## `python/fixed_mediapipe_analyzer.py` — `count_reps_scipy` -/

namespace FixedMediapipe

/-- `count_reps_scipy` (fixed_mediapipe_analyzer.py:251-300).  `savgol w`
models `signal.savgol_filter(·, w, 2)` and `findPeaks dist prom` models
`signal.find_peaks(·, distance=dist, prominence=prom)`; both are external
scipy collaborators passed as parameters.  The function raises
(`Except.error`) on fewer than 8 samples, on an unknown exercise type and on
a zero count — it deliberately has no fallback path. -/
def count_reps_scipy (savgol : ℕ → List ℚ → List ℚ)
    (findPeaks : ℚ → ℚ → List ℚ → List ℕ) (angle_seq : List ℚ)
    (exercise_type : String) : Except String ℕ :=
  if angle_seq.length < 8 then
    Except.error ("Insufficient angle data for rep counting: only " ++
      toString angle_seq.length ++ " measurements")
  else
    let window := min 5 (if angle_seq.length % 2 = 1 then angle_seq.length
      else angle_seq.length - 1)
    let smoothed := savgol window angle_seq
    let reps : Except String ℕ :=
      if exercise_type = "squat" then
        let valleys := findPeaks 3 3 (smoothed.map (fun x => -x))
        Except.ok valleys.length
      else if exercise_type = "deadlift" then
        let peaks := findPeaks 3 4 smoothed
        let valleys := findPeaks 3 4 (smoothed.map (fun x => -x))
        Except.ok (min peaks.length valleys.length)
      else if exercise_type = "push_up" then
        let peaks := findPeaks 2 8 smoothed
        let valleys := findPeaks 2 8 (smoothed.map (fun x => -x))
        Except.ok (min peaks.length valleys.length)
      else Except.error ("Unknown exercise type: " ++ exercise_type)
    match reps with
    | Except.error e => Except.error e
    | Except.ok r =>
      if r = 0 then
        Except.error
          "No repetitions detected - movement may be too small or inconsistent"
      else Except.ok r

end FixedMediapipe

namespace GoodGym

/-- `calculate_form_score` (good_gym_analyzer.py:317-408).  `none` models the
`ValueError` python's `min`/`max` raise on an empty sequence.  The squat
consistency test `np.std(bottom_angles) > 15` is embedded as
`variance > 225` (equivalent: both sides of `std > 15` are non-negative).
Every deduction branch matches the python constants; each exercise branch
returns `max(60, score)`, the generic branch returns a ROM-banded constant. -/
def calculate_form_score (exercise_type : String) (angles : List ℚ) :
    Option ℚ :=
  match angles with
  | [] => none
  | x :: xs =>
    let min_angle := minQ x xs
    let max_angle := maxQ x xs
    let rom := max_angle - min_angle
    if exercise_type = "squat" then
      let s1 : ℚ := 100
      let s2 := if min_angle > 110 then s1 - 20
        else if min_angle > 90 then s1 - 10 else s1
      let s3 := if max_angle < 160 then s2 - 15 else s2
      let bottom_angles := (x :: xs).filter (fun a => a < 120)
      let s4 := if 1 < bottom_angles.length ∧ varianceQ bottom_angles > 225
        then s3 - 10 else s3
      some (qmax 60 s4)
    else if exercise_type = "push_up" then
      let s2 : ℚ := if min_angle > 120 then 100 - 25
        else if min_angle > 100 then 100 - 10 else 100
      let s3 := if max_angle < 160 then s2 - 15 else s2
      some (qmax 60 s3)
    else if exercise_type = "deadlift" then
      let s2 : ℚ := if min_angle > 80 then 100 - 20 else 100
      let s3 := if max_angle < 150 then s2 - 15 else s2
      some (qmax 60 s3)
    else
      some (if rom > 60 then 95 else if rom > 45 then 85
        else if rom > 30 then 75 else 60)

end GoodGym

/-! ## `python/live_analysis.py` — `LiveMovementAnalyzer` form scoring -/

namespace LiveAnalysis

/-- A landmark record as stored in the `angles` dict built by
`_calculate_angles` (live_analysis.py:682-707): normalised coordinates plus
visibility. -/
structure JointRec where
  x : ℚ
  y : ℚ
  z : ℚ
  visibility : ℚ
deriving DecidableEq

/-- The `angles` dictionary: joint name → record. -/
def AngleMap : Type := List (String × JointRec)

instance : DecidableEq AngleMap := by
  unfold AngleMap
  infer_instance

/-- Dict lookup (`angles[k]` / `k in angles`). -/
def lookupJoint (m : AngleMap) (k : String) : Option JointRec :=
  List.lookup k m

/-- `exercise_type in self.exercise_templates` (live_analysis.py:292-308):
the templates are `squat`, `lunge` and `push_up`. -/
def inTemplates (exercise_type : String) : Bool :=
  exercise_type = "squat" ∨ exercise_type = "lunge" ∨
    exercise_type = "push_up"

/-- `template['target_ranges']` in dict order. -/
def targetRanges (exercise_type : String) : List (String × (ℚ × ℚ)) :=
  if exercise_type = "squat" then [("knee", (90, 120)), ("hip", (60, 90))]
  else if exercise_type = "lunge" then
    [("knee", (80, 100)), ("hip", (70, 100))]
  else if exercise_type = "push_up" then
    [("shoulder", (160, 180)), ("elbow", (80, 100))]
  else []

/-- `template['compensation_thresholds'].get(key, default)`. -/
def compThreshold (exercise_type key : String) (dflt : ℚ) : ℚ :=
  if exercise_type = "squat" then
    if key = "knee_valgus" then 15 else if key = "hip_hiking" then 10
    else dflt
  else if exercise_type = "lunge" then
    if key = "knee_valgus" then 12 else if key = "hip_hiking" then 8
    else dflt
  else if exercise_type = "push_up" then
    if key = "shoulder_elevation" then 20 else if key = "hip_sag" then 15
    else dflt
  else dflt

/-- One detected compensation record. -/
structure Compensation where
  joint : String
  compensation_type : String
  severity : String
  value : ℚ
deriving DecidableEq

/-- `_detect_compensations` (live_analysis.py:735-787): knee-valgus
(`|left_knee.x - right_knee.x| * 180` over threshold), hip-hiking
(`|left_hip.y - right_hip.y| * 100`) and shoulder-elevation
(`|left_shoulder.y - right_shoulder.y| * 100`) checks, in source order, each
guarded by the presence of both landmarks. -/
def detect_compensations (angles : AngleMap) (exercise_type : String) :
    List Compensation :=
  if ¬ inTemplates exercise_type then []
  else
    let c1 :=
      match lookupJoint angles "left_knee", lookupJoint angles "right_knee" with
      | some lk, some rk =>
        let valgus_angle := |lk.x - rk.x| * 180
        if valgus_angle > compThreshold exercise_type "knee_valgus" 15 then
          [⟨"knees", "valgus_collapse",
            if valgus_angle > 20 then "moderate" else "mild", valgus_angle⟩]
        else []
      | _, _ => []
    let c2 :=
      match lookupJoint angles "left_hip", lookupJoint angles "right_hip" with
      | some lh, some rh =>
        let hip_difference := |lh.y - rh.y| * 100
        if hip_difference > compThreshold exercise_type "hip_hiking" 10 then
          [⟨"hips", "hip_hiking",
            if hip_difference > 15 then "moderate" else "mild",
            hip_difference⟩]
        else []
      | _, _ => []
    let c3 :=
      match lookupJoint angles "left_shoulder",
          lookupJoint angles "right_shoulder" with
      | some ls, some rs =>
        let shoulder_difference := |ls.y - rs.y| * 100
        if shoulder_difference >
            compThreshold exercise_type "shoulder_elevation" 20 then
          [⟨"shoulders", "elevation",
            if shoulder_difference > 25 then "moderate" else "mild",
            shoulder_difference⟩]
        else []
      | _, _ => []
    c1 ++ c2 ++ c3

/-- `_calculate_form_score` (live_analysis.py:709-732): base 70; +5 per
target-range joint whose `x * 180` is inside its range and −10 when outside
(the range keys `knee`/`hip`/`shoulder`/`elbow` are only counted when present
in the `angles` dict); −5 per detected compensation; the result is clamped
to `[0, 100]` via `max(0, min(100, final_score))`. -/
def calculate_form_score (angles : AngleMap) (exercise_type : String) : ℚ :=
  if ¬ inTemplates exercise_type then 70
  else
    let score_adjustments :=
      (targetRanges exercise_type).filterMap (fun jr =>
        match lookupJoint angles jr.1 with
        | some j =>
          let angle_value := j.x * 180
          some (if jr.2.1 ≤ angle_value ∧ angle_value ≤ jr.2.2 then (5 : ℚ)
            else -10)
        | none => none)
    let compensation_penalty :=
      ((detect_compensations angles exercise_type).length : ℚ) * 5
    let final_score := 70 + sumQ score_adjustments - compensation_penalty
    qmax 0 (qmin 100 final_score)

end LiveAnalysis

/-! ## The three angle calculators (real-arithmetic embedding)

`float` arithmetic is idealised as `ℝ`; the one float phenomenon that matters
here — `0.0 / 0.0` evaluating to NaN in `mediapipe_analyzer.py`'s unguarded
division — is modelled by an `Option` result. -/

/-- A 2-D point `(x, y)`; the python code reads `.x`/`.y` of a MediaPipe
landmark or an `(x, y)` tuple. -/
structure P2 where
  x : ℝ
  y : ℝ

/-- Vector difference `p - q` (numpy `a - b` on 2-vectors). -/
def vsub (p q : P2) : ℝ × ℝ := (p.x - q.x, p.y - q.y)

/-- `np.dot` on 2-vectors. -/
def dotp (v w : ℝ × ℝ) : ℝ := v.1 * w.1 + v.2 * w.2

/-- `np.linalg.norm` on a 2-vector. -/
noncomputable def mag (v : ℝ × ℝ) : ℝ := Real.sqrt (v.1 ^ 2 + v.2 ^ 2)

/-- `np.clip(·, -1.0, 1.0)`. -/
noncomputable def clip (c : ℝ) : ℝ := max (-1) (min 1 c)

namespace GoodGym

/-- `calculate_angle_from_lm` (good_gym_analyzer.py:304-315): clamped-arccos
angle with the `1e-6` guard added to the denominator, converted to degrees by
`np.degrees`. -/
noncomputable def calculate_angle_from_lm (a b c : P2) : ℝ :=
  let ba := vsub a b
  let bc := vsub c b
  let cosine := dotp ba bc / (mag ba * mag bc + 1 / 1000000)
  Real.arccos (clip cosine) * 180 / Real.pi

end GoodGym

namespace Mediapipe

/-- `ExerciseAnalyzer.calculate_angle` (mediapipe_analyzer.py:78-97): the
same clamped-arccos formula but with an unguarded division by
`norm(ba) * norm(bc)`.  When that product is zero the dividend is necessarily
zero as well (a zero-magnitude 2-vector is the zero vector, so the dot
product vanishes), and numpy evaluates `0.0 / 0.0` to NaN, which then flows
through `clip`/`arccos`/`degrees` as NaN without raising — the surrounding
`try/except` never fires.  The NaN outcome is modelled as `none`. -/
noncomputable def calculate_angle (point1 point2 point3 : P2) : Option ℝ :=
  let ba := vsub point1 point2
  let bc := vsub point3 point2
  if mag ba * mag bc = 0 then none
  else
    some (Real.arccos (clip (dotp ba bc / (mag ba * mag bc))) * 180 /
      Real.pi)

end Mediapipe

namespace VideoProcessor

/-- `np.arctan2 y x`, i.e. the argument of the point `(x, y)` in `(-π, π]`. -/
noncomputable def arctan2 (y x : ℝ) : ℝ := Complex.arg ⟨x, y⟩

/-- `VideoProcessor.calculate_angle` (video_processor.py:358-378): the
difference of the two `arctan2` directions, converted to degrees, absolute
value taken, folded into `[0, 180]` by `360 - angle` when above 180. -/
noncomputable def calculate_angle (a b c : P2) : ℝ :=
  let radians := arctan2 (c.y - b.y) (c.x - b.x) - arctan2 (a.y - b.y) (a.x - b.x)
  let angle := |radians * 180 / Real.pi|
  if angle > 180 then 360 - angle else angle

end VideoProcessor

/-! ### Facts about the geometric embedding -/

/-- The 2-vector as a complex number, for relating `arctan2` to `arg`. -/
noncomputable def toC (v : ℝ × ℝ) : ℂ := ⟨v.1, v.2⟩

lemma toC_ne_zero {v : ℝ × ℝ} (h : v ≠ (0, 0)) : toC v ≠ 0 := by
  intro hz
  apply h
  have h1 : v.1 = 0 := by
    have := congrArg Complex.re hz
    simpa [toC] using this
  have h2 : v.2 = 0 := by
    have := congrArg Complex.im hz
    simpa [toC] using this
  exact Prod.ext h1 h2

lemma abs_toC (v : ℝ × ℝ) : Complex.abs (toC v) = mag v := by
  unfold toC mag
  rw [Complex.abs_apply, Complex.normSq_mk]
  congr 1
  ring

lemma mag_pos {v : ℝ × ℝ} (h : v ≠ (0, 0)) : 0 < mag v := by
  have h1 : v.1 ≠ 0 ∨ v.2 ≠ 0 := by
    by_contra hc
    push_neg at hc
    exact h (Prod.ext hc.1 hc.2)
  have hsum : 0 < v.1 ^ 2 + v.2 ^ 2 := by
    rcases h1 with h1 | h1
    · have hne : v.1 ^ 2 ≠ 0 := pow_ne_zero 2 h1
      have := sq_nonneg v.1
      have := sq_nonneg v.2
      have : 0 < v.1 ^ 2 := lt_of_le_of_ne (sq_nonneg v.1) (Ne.symm hne)
      linarith [sq_nonneg v.2]
    · have hne : v.2 ^ 2 ≠ 0 := pow_ne_zero 2 h1
      have : 0 < v.2 ^ 2 := lt_of_le_of_ne (sq_nonneg v.2) (Ne.symm hne)
      linarith [sq_nonneg v.1]
  exact Real.sqrt_pos.mpr hsum

lemma abs_dotp_le (v w : ℝ × ℝ) : |dotp v w| ≤ mag v * mag w := by
  have hs : (dotp v w) ^ 2 ≤ (v.1 ^ 2 + v.2 ^ 2) * (w.1 ^ 2 + w.2 ^ 2) := by
    unfold dotp
    nlinarith [sq_nonneg (v.1 * w.2 - v.2 * w.1)]
  have h1 : |dotp v w| = Real.sqrt ((dotp v w) ^ 2) :=
    (Real.sqrt_sq_eq_abs _).symm
  have h2 : mag v * mag w =
      Real.sqrt ((v.1 ^ 2 + v.2 ^ 2) * (w.1 ^ 2 + w.2 ^ 2)) := by
    rw [mag, mag, ← Real.sqrt_mul (by positivity)]
  rw [h1, h2]
  exact Real.sqrt_le_sqrt hs

lemma clip_of_mem {c : ℝ} (h1 : -1 ≤ c) (h2 : c ≤ 1) : clip c = c := by
  unfold clip
  rw [min_eq_right h2, max_eq_right h1]

lemma arccos_deg_nonneg (t : ℝ) : 0 ≤ Real.arccos t * 180 / Real.pi :=
  div_nonneg (mul_nonneg (Real.arccos_nonneg t) (by norm_num)) Real.pi_pos.le

lemma arccos_deg_le (t : ℝ) : Real.arccos t * 180 / Real.pi ≤ 180 := by
  have hpi := Real.pi_pos
  rw [div_le_iff₀ hpi]
  nlinarith [Real.arccos_le_pi t, Real.arccos_nonneg t]

/-- Cosine of the difference of the two `arg`s is the normalised dot
product. -/
lemma cos_arg_sub {u w : ℝ × ℝ} (hu : u ≠ (0, 0)) (hw : w ≠ (0, 0)) :
    Real.cos (Complex.arg (toC w) - Complex.arg (toC u)) =
      dotp u w / (mag u * mag w) := by
  have hmu : mag u ≠ 0 := ne_of_gt (mag_pos hu)
  have hmw : mag w ≠ 0 := ne_of_gt (mag_pos hw)
  rw [Real.cos_sub, Complex.cos_arg (toC_ne_zero hw), Complex.sin_arg,
    Complex.cos_arg (toC_ne_zero hu), Complex.sin_arg, abs_toC, abs_toC]
  show (w.1 / mag w) * (u.1 / mag u) + (w.2 / mag w) * (u.2 / mag u) =
    dotp u w / (mag u * mag w)
  field_simp
  unfold dotp
  ring

/-- The `360 - angle` degree fold of `video_processor.py` computes
`arccos ∘ cos` for any angle difference in `(-2π, 2π)`. -/
lemma fold_eq_arccos_cos {φ : ℝ} (hl : -(2 * Real.pi) < φ)
    (hr : φ < 2 * Real.pi) :
    (if |φ * 180 / Real.pi| > 180 then 360 - |φ * 180 / Real.pi|
     else |φ * 180 / Real.pi|) = Real.arccos (Real.cos φ) * 180 / Real.pi := by
  have hpi := Real.pi_pos
  have habs : |φ * 180 / Real.pi| = |φ| * 180 / Real.pi := by
    rw [abs_div, abs_mul, abs_of_pos hpi,
      abs_of_nonneg (by norm_num : (0:ℝ) ≤ 180)]
  have habs2 : |φ| < 2 * Real.pi := abs_lt.mpr ⟨by linarith, hr⟩
  rw [habs]
  by_cases hcase : |φ| ≤ Real.pi
  · have hcond : ¬ (|φ| * 180 / Real.pi > 180) := by
      rw [not_lt, div_le_iff₀ hpi]
      nlinarith [abs_nonneg φ]
    rw [if_neg hcond, ← Real.cos_abs,
      Real.arccos_cos (abs_nonneg φ) hcase]
  · push_neg at hcase
    have hcond : |φ| * 180 / Real.pi > 180 := by
      rw [gt_iff_lt, lt_div_iff₀ hpi]
      nlinarith
    rw [if_pos hcond]
    have h1 : Real.cos φ = Real.cos (2 * Real.pi - |φ|) := by
      rw [Real.cos_two_pi_sub, Real.cos_abs]
    rw [h1, Real.arccos_cos (by linarith) (by linarith)]
    field_simp
    ring

/-- `video_processor.py`'s arctan2 angle as a clamp-free arccos formula. -/
lemma vp_angle_eq_arccos (a b c : P2) (h1 : vsub a b ≠ (0, 0))
    (h2 : vsub c b ≠ (0, 0)) :
    VideoProcessor.calculate_angle a b c =
      Real.arccos
        (dotp (vsub a b) (vsub c b) / (mag (vsub a b) * mag (vsub c b))) *
        180 / Real.pi := by
  have e1 : VideoProcessor.arctan2 (c.y - b.y) (c.x - b.x) =
      Complex.arg (toC (vsub c b)) := rfl
  have e2 : VideoProcessor.arctan2 (a.y - b.y) (a.x - b.x) =
      Complex.arg (toC (vsub a b)) := rfl
  show (if |(VideoProcessor.arctan2 (c.y - b.y) (c.x - b.x) -
        VideoProcessor.arctan2 (a.y - b.y) (a.x - b.x)) * 180 / Real.pi| >
        180 then
      360 - |(VideoProcessor.arctan2 (c.y - b.y) (c.x - b.x) -
        VideoProcessor.arctan2 (a.y - b.y) (a.x - b.x)) * 180 / Real.pi|
    else
      |(VideoProcessor.arctan2 (c.y - b.y) (c.x - b.x) -
        VideoProcessor.arctan2 (a.y - b.y) (a.x - b.x)) * 180 / Real.pi|) = _
  rw [e1, e2]
  have hφl : -(2 * Real.pi) <
      Complex.arg (toC (vsub c b)) - Complex.arg (toC (vsub a b)) := by
    have ha := Complex.neg_pi_lt_arg (toC (vsub c b))
    have hb := Complex.arg_le_pi (toC (vsub a b))
    linarith
  have hφr : Complex.arg (toC (vsub c b)) - Complex.arg (toC (vsub a b)) <
      2 * Real.pi := by
    have ha := Complex.arg_le_pi (toC (vsub c b))
    have hb := Complex.neg_pi_lt_arg (toC (vsub a b))
    linarith
  rw [fold_eq_arccos_cos hφl hφr, cos_arg_sub h1 h2]

/-! ### Facts about the rational helpers -/

lemma qmin_le_left (a b : ℚ) : qmin a b ≤ a := by
  unfold qmin
  split_ifs with h
  · exact le_refl a
  · exact le_of_not_le h

lemma qmax_ge_left (a b : ℚ) : a ≤ qmax a b := by
  unfold qmax
  split_ifs with h
  · exact h
  · exact le_refl a

lemma qmax_le (a b c : ℚ) (h1 : a ≤ c) (h2 : b ≤ c) : qmax a b ≤ c := by
  unfold qmax
  split_ifs <;> assumption

lemma foldl_qmin_le_foldl_qmax (xs : List ℚ) :
    ∀ a b : ℚ, a ≤ b → xs.foldl qmin a ≤ xs.foldl qmax b := by
  induction xs with
  | nil => intro a b h; simpa using h
  | cons y ys ih =>
    intro a b h
    simp only [List.foldl_cons]
    apply ih
    calc qmin a y ≤ a := qmin_le_left a y
    _ ≤ b := h
    _ ≤ qmax b y := qmax_ge_left b y

lemma minQ_le_maxQ (x : ℚ) (xs : List ℚ) : minQ x xs ≤ maxQ x xs :=
  foldl_qmin_le_foldl_qmax xs x x (le_refl x)

lemma sumQ_replicate (n : ℕ) (c : ℚ) :
    sumQ (List.replicate n c) = (n : ℚ) * c := by
  induction n with
  | zero => simp [sumQ]
  | succ k ih =>
    rw [List.replicate_succ]
    show c + sumQ (List.replicate k c) = _
    rw [ih]
    push_cast
    ring

lemma meanQ_replicate {n : ℕ} (hn : n ≠ 0) (c : ℚ) :
    meanQ (List.replicate n c) = c := by
  unfold meanQ
  rw [sumQ_replicate, List.length_replicate, mul_comm, mul_div_assoc,
    div_self (Nat.cast_ne_zero.mpr hn), mul_one]

lemma insertSorted_replicate (k : ℕ) (c : ℚ) :
    insertSorted c (List.replicate k c) = List.replicate (k + 1) c := by
  cases k with
  | zero => rfl
  | succ m =>
    rw [List.replicate_succ]
    show (if c ≤ c then c :: c :: List.replicate m c
      else c :: insertSorted c (List.replicate m c)) = _
    rw [if_pos (le_refl c)]
    rfl

lemma sortQ_replicate (k : ℕ) (c : ℚ) :
    sortQ (List.replicate k c) = List.replicate k c := by
  induction k with
  | zero => rfl
  | succ m ih =>
    rw [List.replicate_succ]
    show insertSorted c (sortQ (List.replicate m c)) = _
    rw [ih, insertSorted_replicate]
    rfl

lemma getD_replicate {k i : ℕ} (h : i < k) (c : ℚ) :
    (List.replicate k c).getD i 0 = c := by
  induction k generalizing i with
  | zero => omega
  | succ m ih =>
    cases i with
    | zero => rfl
    | succ j =>
      rw [List.replicate_succ]
      show (List.replicate m c).getD j 0 = c
      exact ih (by omega)

lemma medianQ_replicate {k : ℕ} (hk : k ≠ 0) (c : ℚ) :
    medianQ (List.replicate k c) = c := by
  unfold medianQ
  simp only [sortQ_replicate, List.length_replicate]
  split_ifs with h
  · exact getD_replicate (Nat.div_lt_self (by omega) (by norm_num)) c
  · rw [getD_replicate (by omega) c,
      getD_replicate (Nat.div_lt_self (by omega) (by norm_num)) c]
    ring

lemma varianceQ_replicate {k : ℕ} (hk : k ≠ 0) (c : ℚ) :
    varianceQ (List.replicate k c) = 0 := by
  unfold varianceQ
  rw [List.map_replicate, meanQ_replicate hk, sub_self]
  norm_num
  rw [sumQ_replicate]
  simp

lemma pushHist_replicate (k : ℕ) (c : ℚ) :
    GoodGym.pushHist (List.replicate k c) c =
      List.replicate (min (k + 1) 5) c := by
  unfold GoodGym.pushHist
  rw [← List.replicate_succ', List.drop_replicate, List.length_replicate]
  congr 1
  omega

lemma smooth_angle_replicate (k : ℕ) (c : ℚ) :
    GoodGym.smooth_angle (List.replicate k c) c =
      (List.replicate (min (k + 1) 5) c, c) := by
  have hm1 : min (k + 1) 5 ≠ 0 := by omega
  unfold GoodGym.smooth_angle
  simp only [pushHist_replicate, List.length_replicate]
  by_cases h : min (k + 1) 5 < 3
  · rw [if_pos h]
  · rw [if_neg h]
    simp only [medianQ_replicate hm1, varianceQ_replicate hm1]
    have hcond : decide ((c - c) ^ 2 ≤ 4 * 0) = true := by simp
    rw [List.filter_replicate, if_pos hcond, List.length_replicate,
      if_pos (by omega), meanQ_replicate hm1]

lemma smoothStream_replicate (c : ℚ) (n : ℕ) :
    ∀ k : ℕ, smoothStream (List.replicate k c) (List.replicate n c) =
      List.replicate n c := by
  induction n with
  | zero => intro k; rfl
  | succ m ih =>
    intro k
    rw [List.replicate_succ]
    show (GoodGym.smooth_angle (List.replicate k c) c).2 ::
      smoothStream (GoodGym.smooth_angle (List.replicate k c) c).1
        (List.replicate m c) = _
    rw [smooth_angle_replicate]
    simpa using ih (min (k + 1) 5)

lemma smooth_angle_sequence_replicate (n : ℕ) (c : ℚ) :
    Mediapipe.smooth_angle_sequence (List.replicate n c) =
      List.replicate n c := by
  unfold Mediapipe.smooth_angle_sequence
  split_ifs with h
  · rfl
  · rw [List.length_replicate] at h ⊢
    rw [List.eq_replicate_iff]
    constructor
    · simp
    · intro b hb
      rw [List.mem_map] at hb
      obtain ⟨i, hi, hb⟩ := hb
      rw [List.mem_range] at hi
      rw [← hb]
      simp only [List.drop_replicate, List.take_replicate]
      exact meanQ_replicate (by omega) c

/-! ### Claim theorems -/

set_option maxRecDepth 1000000 in
/-- **C1.** For the 21-sample scenario sequence the adaptive thresholds are
`down = 122` and `up = 138`, and running the Good-GYM repetition counter
exactly as `analyze_video` does (stage seeded from the first sample, frame
number `(i+1)*3`, the default 30 fps) yields a final count of 2. -/
theorem scenario_thresholds_and_count :
    GoodGym.get_adaptive_thresholds GoodGym.scenarioSeq = some (122, 138) ∧
    GoodGym.runCounter GoodGym.scenarioSeq 30 138 122 = 2 := by
  constructor
  · with_unfolding_all decide
  · with_unfolding_all decide

/-- **C4 (counterexample).** On the singleton sequence `[100]` the adaptive
thresholds are `low = high = 100`, so `low < high` fails: the claim is false
for constant (in particular single-sample) sequences. -/
theorem adaptive_thresholds_not_strict :
    GoodGym.get_adaptive_thresholds [100] = some (100, 100) ∧
    ¬ ((100 : ℚ) < 100) := by
  constructor
  · with_unfolding_all decide
  · exact lt_irrefl 100

/-- **C4 (amended).** For every non-empty sequence the adaptive thresholds
are `low = min + 0.4·(max−min)` and `high = min + 0.6·(max−min)` with
`low ≤ high`, and `low < high` whenever the observed range is non-degenerate
(`min < max`). -/
theorem adaptive_thresholds_spec (x : ℚ) (xs : List ℚ) :
    ∃ lo hi : ℚ,
      GoodGym.get_adaptive_thresholds (x :: xs) = some (lo, hi) ∧
      lo = minQ x xs + (maxQ x xs - minQ x xs) * (2/5) ∧
      hi = minQ x xs + (maxQ x xs - minQ x xs) * (3/5) ∧
      lo ≤ hi ∧
      (minQ x xs < maxQ x xs → lo < hi) := by
  have hr : 0 ≤ maxQ x xs - minQ x xs := by
    have := minQ_le_maxQ x xs
    linarith
  refine ⟨_, _, rfl, rfl, rfl, ?_, ?_⟩
  · nlinarith
  · intro h
    nlinarith

/-- **C4 (witness).** The amended theorem applied to the sequence
`[90, 170]`, whose range is non-degenerate, so the thresholds are strictly
ordered. -/
theorem adaptive_thresholds_spec_witness :
    ∃ lo hi : ℚ,
      GoodGym.get_adaptive_thresholds [90, 170] = some (lo, hi) ∧
      lo < hi := by
  obtain ⟨lo, hi, heq, _, _, _, hstrict⟩ := adaptive_thresholds_spec 90 [170]
  exact ⟨lo, hi, heq, hstrict (by with_unfolding_all decide)⟩

/-- **C5.** `count_rep` leaves the counter unchanged (and returns `False`)
whenever the incoming state is not `up` — in particular on every
below-threshold sample seen before any `up` state — and a changed counter
implies the previous state was `up`. -/
theorem count_rep_requires_up (s : GoodGym.CounterState)
    (angle fn fps up down : ℚ) :
    (s.stage ≠ some GoodGym.Stage.up →
      ((GoodGym.count_rep s angle fn fps up down).1.counter = s.counter ∧
       (GoodGym.count_rep s angle fn fps up down).2 = false)) ∧
    ((GoodGym.count_rep s angle fn fps up down).1.counter ≠ s.counter →
      s.stage = some GoodGym.Stage.up) := by
  have key : s.stage ≠ some GoodGym.Stage.up →
      ((GoodGym.count_rep s angle fn fps up down).1.counter = s.counter ∧
       (GoodGym.count_rep s angle fn fps up down).2 = false) := by
    intro h
    unfold GoodGym.count_rep
    dsimp only
    split_ifs with h1 h2
    · exact ⟨rfl, rfl⟩
    · exact ⟨rfl, rfl⟩
    · exact ⟨rfl, rfl⟩
  refine ⟨key, fun h => ?_⟩
  by_contra hc
  exact h (key hc).1

/-- **C5 (witness).** Starting from the initial state (stage `None`), a
sample below the low threshold counts nothing. -/
theorem count_rep_requires_up_witness :
    (GoodGym.count_rep GoodGym.initState 100 3 30 138 122).1.counter =
      GoodGym.initState.counter ∧
    (GoodGym.count_rep GoodGym.initState 100 3 30 138 122).2 = false :=
  (count_rep_requires_up GoodGym.initState 100 3 30 138 122).1
    (by with_unfolding_all decide)

/-- Five frames whose averaged per-joint angle series have ROM
hip = 70°, knee = 10°, elbow = 5° — the fixed ROM input of the determinism
scenario. -/
def detFrames : List ResearchBased.AFrame :=
  [⟨some 100, some 100, some 100, some 100, some 100, some 100⟩,
   ⟨some 170, some 170, some 110, some 110, some 105, some 105⟩,
   ⟨some 100, some 100, some 100, some 100, some 100, some 100⟩,
   ⟨some 100, some 100, some 100, some 100, some 100, some 100⟩,
   ⟨some 100, some 100, some 100, some 100, some 100, some 100⟩]

set_option maxRecDepth 1000000 in
/-- **C9.** The embedded classifier is a pure function — the same input
always maps to the same label — and on the fixed ROM input
(hip = 70°, knee = 10°, elbow = 5°) that label is `deadlift` (in-range hip
and knee ROM score 3 + 3 for the deadlift signature). -/
theorem classify_deterministic :
    (∀ d : List ResearchBased.AFrame,
      ResearchBased.classify d = ResearchBased.classify d) ∧
    ResearchBased.classify detFrames = "deadlift" :=
  ⟨fun _ => rfl, by with_unfolding_all decide⟩

/-- **C6 (counterexample).** On a length-3 sequence `count_reps_scipy`
raises (`Except.error`) instead of returning a zero count — here
instantiated with the identity smoother and a peak finder returning no
peaks, though the guard fires before either is consulted. -/
theorem count_reps_scipy_raises_short :
    FixedMediapipe.count_reps_scipy (fun _ l => l) (fun _ _ _ => [])
      [150, 90, 150] "squat" =
    Except.error ("Insufficient angle data for rep counting: only " ++
      toString (3 : ℕ) ++ " measurements") := by
  with_unfolding_all rfl

/-- **C6 (amended).** For sequences shorter than 5 samples the
research-based `RepCounter.count_reps` returns 0 without raising (its guard
is `len < 10`), for any behaviour of the external scipy helpers; but
`count_reps_scipy` in `fixed_mediapipe_analyzer.py` instead raises its
"insufficient angle data" exception (its guard is `len < 8`). -/
theorem short_sequence_rep_counts (savgol : List ℚ → List ℚ)
    (findPeaks : List ℚ → List ℕ) (savgolW : ℕ → List ℚ → List ℚ)
    (findPeaksP : ℚ → ℚ → List ℚ → List ℕ) (seq : List ℚ) (ex : String)
    (hlen : seq.length < 5) :
    ResearchBased.count_reps savgol findPeaks seq = 0 ∧
    FixedMediapipe.count_reps_scipy savgolW findPeaksP seq ex =
      Except.error ("Insufficient angle data for rep counting: only " ++
        toString seq.length ++ " measurements") := by
  constructor
  · unfold ResearchBased.count_reps
    rw [if_pos (by omega)]
  · unfold FixedMediapipe.count_reps_scipy
    rw [if_pos (by omega)]

/-- **C6 (witness).** The amended theorem at the length-3 sequence
`[1, 2, 3]` with identity/empty scipy stand-ins. -/
theorem short_sequence_rep_counts_witness :
    ResearchBased.count_reps (fun l => l) (fun _ => []) [1, 2, 3] = 0 ∧
    FixedMediapipe.count_reps_scipy (fun _ l => l) (fun _ _ _ => [])
      [1, 2, 3] "squat" =
      Except.error ("Insufficient angle data for rep counting: only " ++
        toString (3 : ℕ) ++ " measurements") :=
  short_sequence_rep_counts (fun l => l) (fun _ => []) (fun _ l => l)
    (fun _ _ _ => []) [1, 2, 3] "squat" (by decide)

/-- The `angles` dict of a squat frame with strong left/right asymmetry at
the knees (x), hips (y) and shoulders (y): all three compensation checks
fire. -/
def asymMap : LiveAnalysis.AngleMap :=
  [("left_knee", ⟨1/2, 0, 0, 1⟩), ("right_knee", ⟨0, 0, 0, 1⟩),
   ("left_hip", ⟨0, 1/2, 0, 1⟩), ("right_hip", ⟨0, 0, 0, 1⟩),
   ("left_shoulder", ⟨0, 1/2, 0, 1⟩), ("right_shoulder", ⟨0, 0, 0, 1⟩)]

set_option maxRecDepth 1000000 in
/-- **C8 (counterexample).** `live_analysis.py`'s `_calculate_form_score`
returns 55 (< 60) for a recognised exercise (`squat`) on a frame whose three
bilateral-asymmetry compensations all fire: base 70 − 3·5, clamped only to
`[0, 100]`. -/
theorem live_form_score_below_sixty :
    LiveAnalysis.calculate_form_score asymMap "squat" = 55 ∧
    (55 : ℚ) < 60 := by
  constructor
  · with_unfolding_all decide
  · norm_num

set_option maxHeartbeats 2000000 in
/-- **C8 (amended).** `good_gym_analyzer.py`'s `calculate_form_score` is
bounded in `[60, 100]` for every exercise type and non-empty angle sequence
(its deductions never exceed 45 and the result passes through
`max(60, ·)`); `live_analysis.py`'s `_calculate_form_score` is only clamped
to `[0, 100]` and can return below 60. -/
theorem form_score_bounds :
    (∀ (ex : String) (x : ℚ) (xs : List ℚ), ∃ s : ℚ,
      GoodGym.calculate_form_score ex (x :: xs) = some s ∧
        60 ≤ s ∧ s ≤ 100) ∧
    (∀ (angles : LiveAnalysis.AngleMap) (ex : String),
      0 ≤ LiveAnalysis.calculate_form_score angles ex ∧
      LiveAnalysis.calculate_form_score angles ex ≤ 100) := by
  constructor
  · intro ex x xs
    unfold GoodGym.calculate_form_score
    dsimp only
    split_ifs <;>
      refine ⟨_, rfl, ?_, ?_⟩ <;>
      first
        | exact qmax_ge_left 60 _
        | exact qmax_le _ _ _ (by norm_num) (by norm_num)
        | norm_num
  · intro angles ex
    unfold LiveAnalysis.calculate_form_score
    dsimp only
    split_ifs with h
    · exact ⟨qmax_ge_left 0 _,
        qmax_le _ _ _ (by norm_num) (qmin_le_left 100 _)⟩
    · constructor <;> norm_num

/-- **C7.** Smoothing a constant sequence returns it unchanged — both for
`mediapipe_analyzer.py`'s moving-average `smooth_angle_sequence` and for the
per-sample Good-GYM `smooth_angle` stream started from an empty history. -/
theorem smoothing_constant_fixed (n : ℕ) (c : ℚ) :
    Mediapipe.smooth_angle_sequence (List.replicate n c) =
      List.replicate n c ∧
    smoothStream [] (List.replicate n c) = List.replicate n c := by
  refine ⟨smooth_angle_sequence_replicate n c, ?_⟩
  have h := smoothStream_replicate c n 0
  simpa using h

/-- Shared evaluation of both arccos-based calculators on a degenerate
triple (one of the two vectors exactly zero): the dot product and the norm
product both vanish. -/
lemma degenerate_angle_values (a b c : P2)
    (h : vsub a b = (0, 0) ∨ vsub c b = (0, 0)) :
    GoodGym.calculate_angle_from_lm a b c = 90 ∧
    Mediapipe.calculate_angle a b c = none := by
  have hdot : dotp (vsub a b) (vsub c b) = 0 := by
    rcases h with h | h <;> rw [h] <;> simp [dotp]
  have hden : mag (vsub a b) * mag (vsub c b) = 0 := by
    rcases h with h | h <;> rw [h] <;> simp [mag]
  constructor
  · unfold GoodGym.calculate_angle_from_lm
    dsimp only
    rw [hdot, hden, zero_add, zero_div]
    have hclip : clip 0 = 0 := by
      unfold clip
      norm_num
    rw [hclip, Real.arccos_zero]
    field_simp
    ring
  · unfold Mediapipe.calculate_angle
    dsimp only
    rw [if_pos hden]

/-- **C2 (counterexample).** At the degenerate triple `A = B = (0,0)`,
`C = (1,0)`, `mediapipe_analyzer.py`'s calculator produces NaN (modelled
`none`) — not a sentinel "invalid" angle — and `good_gym_analyzer.py`'s
returns the ordinary angle 90°, also not a sentinel. -/
theorem degenerate_angle_no_sentinel :
    Mediapipe.calculate_angle ⟨0, 0⟩ ⟨0, 0⟩ ⟨1, 0⟩ = none ∧
    GoodGym.calculate_angle_from_lm ⟨0, 0⟩ ⟨0, 0⟩ ⟨1, 0⟩ = 90 :=
  ⟨(degenerate_angle_values ⟨0, 0⟩ ⟨0, 0⟩ ⟨1, 0⟩ (Or.inl (by simp [vsub]))).2,
   (degenerate_angle_values ⟨0, 0⟩ ⟨0, 0⟩ ⟨1, 0⟩ (Or.inl (by simp [vsub]))).1⟩

/-- **C2 (amended).** On every point triple in which one of the two vectors
has exactly zero length, `good_gym_analyzer.py`'s calculator (whose
denominator is guarded by `+1e-6`) returns the ordinary numeric angle 90°
rather than an "invalid" sentinel, and `mediapipe_analyzer.py`'s unguarded
calculator returns NaN (modelled `none`); neither raises. -/
theorem degenerate_triple_behaviour (a b c : P2)
    (h : vsub a b = (0, 0) ∨ vsub c b = (0, 0)) :
    GoodGym.calculate_angle_from_lm a b c = 90 ∧
    Mediapipe.calculate_angle a b c = none :=
  degenerate_angle_values a b c h

/-- **C2 (witness).** The amended theorem at the triple `A = B = (1,1)`,
`C = (2,3)`. -/
theorem degenerate_triple_behaviour_witness :
    GoodGym.calculate_angle_from_lm ⟨1, 1⟩ ⟨1, 1⟩ ⟨2, 3⟩ = 90 ∧
    Mediapipe.calculate_angle ⟨1, 1⟩ ⟨1, 1⟩ ⟨2, 3⟩ = none :=
  degenerate_triple_behaviour ⟨1, 1⟩ ⟨1, 1⟩ ⟨2, 3⟩ (Or.inl (by simp [vsub]))

/-- **C3.** For every triple whose two vectors are non-zero, both the
clamped-arccos calculator of `good_gym_analyzer.py` and the arctan2
calculator of `video_processor.py` return an angle in `[0, 180]` degrees. -/
theorem angle_in_range (a b c : P2) (h1 : vsub a b ≠ (0, 0))
    (h2 : vsub c b ≠ (0, 0)) :
    (0 ≤ GoodGym.calculate_angle_from_lm a b c ∧
      GoodGym.calculate_angle_from_lm a b c ≤ 180) ∧
    (0 ≤ VideoProcessor.calculate_angle a b c ∧
      VideoProcessor.calculate_angle a b c ≤ 180) := by
  constructor
  · exact ⟨arccos_deg_nonneg _, arccos_deg_le _⟩
  · rw [vp_angle_eq_arccos a b c h1 h2]
    exact ⟨arccos_deg_nonneg _, arccos_deg_le _⟩

/-- **C3 (witness).** The range theorem at the right-angle triple
`A = (1,0)`, `B = (0,0)`, `C = (0,1)`. -/
theorem angle_in_range_witness :
    (0 ≤ GoodGym.calculate_angle_from_lm ⟨1, 0⟩ ⟨0, 0⟩ ⟨0, 1⟩ ∧
      GoodGym.calculate_angle_from_lm ⟨1, 0⟩ ⟨0, 0⟩ ⟨0, 1⟩ ≤ 180) ∧
    (0 ≤ VideoProcessor.calculate_angle ⟨1, 0⟩ ⟨0, 0⟩ ⟨0, 1⟩ ∧
      VideoProcessor.calculate_angle ⟨1, 0⟩ ⟨0, 0⟩ ⟨0, 1⟩ ≤ 180) :=
  angle_in_range ⟨1, 0⟩ ⟨0, 0⟩ ⟨0, 1⟩ (by simp [vsub]) (by simp [vsub])

/-- **C10.** On every triple with two non-zero vectors, the
arctan2-difference formula of `video_processor.py` and the clamped-arccos
formula of `mediapipe_analyzer.py` agree exactly (in real arithmetic), and
the common value lies in `[0, 180]` degrees. -/
theorem angle_formulas_agree (a b c : P2) (h1 : vsub a b ≠ (0, 0))
    (h2 : vsub c b ≠ (0, 0)) :
    Mediapipe.calculate_angle a b c =
      some (VideoProcessor.calculate_angle a b c) ∧
    0 ≤ VideoProcessor.calculate_angle a b c ∧
    VideoProcessor.calculate_angle a b c ≤ 180 := by
  have hden : 0 < mag (vsub a b) * mag (vsub c b) :=
    mul_pos (mag_pos h1) (mag_pos h2)
  have habs : |dotp (vsub a b) (vsub c b) /
      (mag (vsub a b) * mag (vsub c b))| ≤ 1 := by
    rw [abs_div, abs_of_pos hden]
    exact div_le_one_of_le₀ (abs_dotp_le _ _) hden.le
  have hclip := clip_of_mem (neg_le_of_abs_le habs) (le_of_abs_le habs)
  constructor
  · unfold Mediapipe.calculate_angle
    dsimp only
    rw [if_neg hden.ne', hclip, vp_angle_eq_arccos a b c h1 h2]
  · rw [vp_angle_eq_arccos a b c h1 h2]
    exact ⟨arccos_deg_nonneg _, arccos_deg_le _⟩

/-- **C10 (witness).** The agreement theorem at the right-angle triple
`A = (1,0)`, `B = (0,0)`, `C = (0,1)`. -/
theorem angle_formulas_agree_witness :
    Mediapipe.calculate_angle ⟨1, 0⟩ ⟨0, 0⟩ ⟨0, 1⟩ =
      some (VideoProcessor.calculate_angle ⟨1, 0⟩ ⟨0, 0⟩ ⟨0, 1⟩) ∧
    0 ≤ VideoProcessor.calculate_angle ⟨1, 0⟩ ⟨0, 0⟩ ⟨0, 1⟩ ∧
    VideoProcessor.calculate_angle ⟨1, 0⟩ ⟨0, 0⟩ ⟨0, 1⟩ ≤ 180 :=
  angle_formulas_agree ⟨1, 0⟩ ⟨0, 0⟩ ⟨0, 1⟩ (by simp [vsub]) (by simp [vsub])
